import Mathlib

/-!
Verification development for the sensor_server storage/merge subsystem.

Shallow embedding conventions:

* Timestamps (`pd.Timestamp`, `datetime.datetime`) are integer seconds since
  the Unix epoch 1970-01-01T00:00:00; `pd.Timedelta(days = n)` is `n * 86400`.
  Calendar days are obtained by floor division with 86400.
* Python's floor division `//` and floor modulus `%` agree with Lean's
  `Int` `/` (`Int.ediv`) and `%` (`Int.emod`) whenever the divisor is
  positive, which is the case everywhere in this development.
* The proleptic Gregorian calendar used by `datetime` / `pandas` is embedded
  through the standard days-from-civil algorithm (`daysFromCivil`), with day
  number 0 = 1970-01-01 (a Thursday); `weekday()` (Monday = 0) is
  `(day + 3) % 7`.
* `date.isocalendar()` is embedded by the ISO-8601 characterisation: the ISO
  year of a day `d` is the unique `y` with
  `week1Start y ≤ d < week1Start (y + 1)`, where `week1Start y` is the Monday
  on or before Jan 4 of `y`; the ISO week is the week ordinal from that
  Monday.  Executability comes from a bounded search inside one 400-year
  Gregorian era (146097 days = exactly 20871 weeks, so ISO weeks are
  periodic across eras).
* A pandas `DataFrame` of sensor readings is embedded as a list of rows
  (`Frame`); the MultiIndex `(sensor_type, sensor, timestamp)` is part of
  each row.  Categorical cells are `Option String` (`none` = `NaN`, produced
  by `pd.Categorical` for out-of-vocabulary values).  `sort_index` is a
  stable sort by the index key, ordered by category codes.  The float
  `reading` value is carried as an integer payload: no code under
  verification performs arithmetic on it.
* Where it matters, a frame is paired with its *index form* (`PdFrame`):
  whether the key triple is currently installed as the MultiIndex or held
  in plain columns.  `sensordata.py`'s `repair_dataframe` begins with the
  column access `df["timestamp"]`, which raises `KeyError` on an indexed
  frame — an error path that `ParquetManager.get_historic_data` and
  `ParquetManager._save_dataframe_by_week` hit on every non-empty input,
  rendered as `Option`.
* In the serialization section only, the integer timestamps are read at
  pandas' native nanosecond resolution, because `to_json(orient="table")`
  serializes dates in ISO form at millisecond precision and so truncates
  sub-millisecond timestamps; everywhere else whole seconds suffice.
-/

/-- Model of the proleptic-Gregorian "days from civil date" conversion used
by `datetime`/`pandas`: day number of year `y`, month `m`, day `d`, with
day 0 = 1970-01-01. -/
def daysFromCivil (y m d : Int) : Int :=
  let yy := if m ≤ 2 then y - 1 else y
  let era := yy / 400
  let yoe := yy - era * 400
  let doy := (153 * (if m > 2 then m - 3 else m + 9) + 2) / 5 + d - 1
  let doe := yoe * 365 + yoe / 4 - yoe / 100 + doy
  era * 146097 + doe - 719468

/-- Model of `datetime.weekday()` on a day number: Monday = 0. -/
def weekdayOf (d : Int) : Int := (d + 3) % 7

/-- Day number of Jan 4 of `y` (always inside ISO week 1 of `y`). -/
def jan4day (y : Int) : Int := daysFromCivil y 1 4

/-- The Monday starting ISO week 1 of year `y` (the Monday on or before
Jan 4 of `y`). -/
def week1Start (y : Int) : Int := jan4day y - weekdayOf (jan4day y)

/-- Bounded upward search used to make the ISO year computable: starting
from year-in-era `k`, find the first `j ≥ k` with `dn < week1Start (j+1)`,
trying at most `fuel` increments. -/
def searchYear (dn : Int) (k fuel : Nat) : Nat :=
  match fuel with
  | 0 => k
  | fuel + 1 => if dn < week1Start (k + 1) then k else searchYear dn (k + 1) fuel

/-- Model of the ISO calendar year of a day number, per ISO-8601: the unique
`y` with `week1Start y ≤ d < week1Start (y+1)`.  Computed by reducing `d`
into the 400-year era `[0000-03-01, 0400-03-01)` (ISO weeks are periodic
with period 146097 days = 20871 weeks) and searching the year there. -/
def isoYearOf (d : Int) : Int :=
  let e := (d + 719468) / 146097
  let dn := d - 146097 * e
  400 * e + (searchYear dn 0 401 : Nat)

/-- Model of the ISO calendar week of a day number: the week ordinal of
`d`'s week (whose Monday is `d - weekdayOf d`) counted from ISO week 1 of
`d`'s ISO year. -/
def isoWeekOf (d : Int) : Int :=
  (d - weekdayOf d - week1Start (isoYearOf d)) / 7 + 1

/-- Calendar day of an integer-seconds timestamp. -/
def dayOfTs (t : Int) : Int := t / 86400

/-- `timestamp.isocalendar().year`. -/
def isoYearTs (t : Int) : Int := isoYearOf (dayOfTs t)

/-- `timestamp.isocalendar().week`. -/
def isoWeekTs (t : Int) : Int := isoWeekOf (dayOfTs t)

lemma jan4day_period (e k : Int) : jan4day (400 * e + k) = 146097 * e + jan4day k := by
  simp only [jan4day, daysFromCivil]
  norm_num
  omega

lemma week1Start_period (e k : Int) : week1Start (400 * e + k) = 146097 * e + week1Start k := by
  simp only [week1Start, weekdayOf, jan4day_period]
  omega

lemma jan4day_succ (y : Int) :
    jan4day y + 365 ≤ jan4day (y + 1) ∧ jan4day (y + 1) ≤ jan4day y + 366 := by
  simp only [jan4day, daysFromCivil]
  norm_num
  omega

lemma week1Start_lt_succ (y : Int) : week1Start y < week1Start (y + 1) := by
  have h := jan4day_succ y
  simp only [week1Start, weekdayOf] at h ⊢
  omega

lemma searchYear_spec (dn : Int) (k fuel : Nat)
    (hlow : week1Start (k : Int) ≤ dn)
    (hhigh : dn < week1Start ((k : Int) + fuel + 1)) :
    week1Start (searchYear dn k fuel : Int) ≤ dn ∧
      dn < week1Start ((searchYear dn k fuel : Int) + 1) := by
  induction fuel generalizing k with
  | zero =>
    simp only [searchYear]
    constructor
    · exact hlow
    · simpa using hhigh
  | succ fuel ih =>
    simp only [searchYear]
    by_cases h : dn < week1Start ((k : Int) + 1)
    · simp only [if_pos h]
      exact ⟨hlow, h⟩
    · simp only [if_neg h]
      have hlow' : week1Start ((k + 1 : Nat) : Int) ≤ dn := by
        push_cast
        omega
      have hhigh' : dn < week1Start (((k + 1 : Nat) : Int) + fuel + 1) := by
        push_cast at hhigh ⊢
        have : ((k : Int) + 1) + fuel + 1 = (k : Int) + (fuel + 1) + 1 := by ring
        rw [this]
        exact hhigh
      exact ih (k + 1) hlow' hhigh'

lemma week1Start_zero : week1Start 0 = -719526 := by decide

lemma week1Start_402 : week1Start 402 = -572701 := by decide

/-- The bracket characterisation of the ISO year: every day `d` lies in the
half-open ISO-year interval `[week1Start (isoYearOf d), week1Start (isoYearOf d + 1))`. -/
lemma isoYearOf_bracket (d : Int) :
    week1Start (isoYearOf d) ≤ d ∧ d < week1Start (isoYearOf d + 1) := by
  have hiso : isoYearOf d = 400 * ((d + 719468) / 146097) +
      ((searchYear (d - 146097 * ((d + 719468) / 146097)) 0 401 : Nat) : Int) := rfl
  set e := (d + 719468) / 146097 with he
  set dn := d - 146097 * e with hdn
  set k := searchYear dn 0 401 with hk
  have hmod : 0 ≤ d + 719468 - 146097 * e ∧ d + 719468 - 146097 * e < 146097 := by
    rw [he]
    omega
  have hlow : week1Start ((0 : Nat) : Int) ≤ dn := by
    push_cast
    rw [week1Start_zero]
    omega
  have hhigh : dn < week1Start (((0 : Nat) : Int) + (401 : Nat) + 1) := by
    have h402 : ((0 : Nat) : Int) + ((401 : Nat) : Int) + 1 = 402 := by norm_num
    rw [h402, week1Start_402]
    omega
  have hspec := searchYear_spec dn 0 401 hlow hhigh
  rw [← hk] at hspec
  have hp1 := week1Start_period e (k : Int)
  have hp2 := week1Start_period e ((k : Int) + 1)
  have harg : 400 * e + ((k : Int) + 1) = 400 * e + (k : Int) + 1 := by ring
  rw [harg] at hp2
  rw [hiso]
  omega

/-- A day always precedes Jan 4 of the following ISO year (drives
termination of the recursive historic loader). -/
lemma lt_jan4day_next (d : Int) : d < jan4day (isoYearOf d + 1) := by
  have hb := (isoYearOf_bracket d).2
  have : week1Start (isoYearOf d + 1) ≤ jan4day (isoYearOf d + 1) := by
    simp only [week1Start, weekdayOf]
    omega
  omega

/-- Timestamp-level counterpart of `lt_jan4day_next`. -/
lemma ts_lt_jan4_next (t : Int) : t < 86400 * jan4day (isoYearTs t + 1) := by
  have hd := lt_jan4day_next (dayOfTs t)
  have hts : 86400 * dayOfTs t ≤ t ∧ t < 86400 * dayOfTs t + 86400 := by
    unfold dayOfTs
    omega
  unfold isoYearTs
  omega

/-! ## Week helpers (`parquetmanager.py` / `datastore.py`, `start_of_week` / `end_of_week`) -/

/-- `start_of_week(year, week)`: the timestamp of the Monday starting the
given ISO week: Jan 4 minus its weekday, plus `(week - 1)` weeks. -/
def start_of_week (year week : Int) : Int :=
  let jan_fourth := 86400 * daysFromCivil year 1 4
  let start_of_week_one := jan_fourth - 86400 * weekdayOf (daysFromCivil year 1 4)
  start_of_week_one + 86400 * ((week - 1) * 7)

/-- `end_of_week(year, week)` = `start_of_week(year, week) + 7 days` (never
computed as `start_of_week` of `week + 1`). -/
def end_of_week (year week : Int) : Int := start_of_week year week + 86400 * 7

/-- `parquetmanager.start_of_week_timestamp`: `start_of_week(*timestamp.isocalendar())`. -/
def start_of_week_timestamp (t : Int) : Int := start_of_week (isoYearTs t) (isoWeekTs t)

/-! ## Data model (`sensor.py`, `sensordata.py`)

`sensor.SensorReading` is a pydantic model whose fields are declared `str`
(construction-time validators check the enum vocabularies, but the carried
values are plain strings).  The timestamp string is modeled as the parsed
instant (integer seconds); `reading : float` is carried as an integer
payload on which no verified code computes. -/

structure SensorReading where
  sensor_type : String
  sensor : String
  timestamp : Int
  reading : Int
  unit : String
deriving DecidableEq, Repr

/-- `SensorType.values()`. -/
def sensorTypeValues : List String := ["temperature", "humidity"]

/-- `Sensor.values()`. -/
def sensorValues : List String := ["DHT11", "PI_CPU", "DS18B20"]

/-- `Unit.values()`. -/
def unitValues : List String := ["C", "%"]

/-- The pydantic construction-time validators of `sensor.SensorReading`. -/
def pydanticValid (r : SensorReading) : Bool :=
  sensorTypeValues.contains r.sensor_type && sensorValues.contains r.sensor &&
    unitValues.contains r.unit

/-- A row of a sensor `DataFrame`: the three index levels
`(sensor_type, sensor, timestamp)` plus the value columns
`(reading, unit)`.  Categorical cells are `Option String`; `none` is `NaN`. -/
structure FrameRow where
  sensor_type : Option String
  sensor : Option String
  timestamp : Int
  reading : Int
  unit : Option String
deriving DecidableEq, Repr

/-- A sensor `DataFrame`, as its list of rows. -/
abbrev Frame := List FrameRow

/-- `SensorData.construct_empty_dataframe()`: the typed zero-row frame. -/
def construct_empty_dataframe : Frame := []

/-- `pd.Categorical(column, categories = vocab)`: values outside the
vocabulary become `NaN`. -/
def convertCell (vocab : List String) : Option String → Option String
  | some s => if vocab.contains s then some s else none
  | none => none

/-- `SensorData._convert_columns`: re-applies the categorical dtypes to the
three enum columns; `pd.to_datetime` on an already-parsed instant is the
identity. -/
def convertColumnsRow (r : FrameRow) : FrameRow :=
  { r with
    sensor_type := convertCell sensorTypeValues r.sensor_type
    sensor := convertCell sensorValues r.sensor
    unit := convertCell unitValues r.unit }

/-- A pandas frame together with its index form: `indexed` records whether
the key triple `(sensor_type, sensor, timestamp)` is currently installed
as the MultiIndex (`true`) or held in plain columns (`false`). -/
structure PdFrame where
  rows : Frame
  indexed : Bool
deriving DecidableEq, Repr

/-- `sensordata.SensorData.repair_dataframe` (the final revision):
`_convert_columns` followed by `set_index`.  `_convert_columns` starts
with the column access `df["timestamp"]`, so on an already-indexed frame
(where `timestamp` is an index level, not a column) the call raises
`KeyError('timestamp')`, rendered as `none`; on a column-form frame it
re-types the three enum columns and installs the MultiIndex.  Note: this
revision applies no `drop_duplicates`. -/
def repair_dataframe (f : PdFrame) : Option PdFrame :=
  if f.indexed then none
  else some { rows := f.rows.map convertColumnsRow, indexed := true }

/-- Category code of a `sensor_type` cell (categories in enum order;
`NaN` sorts last). -/
def sensorTypeCode : Option String → Nat
  | some s => if s = "temperature" then 0 else if s = "humidity" then 1 else 2
  | none => 2

/-- Category code of a `sensor` cell. -/
def sensorCode : Option String → Nat
  | some s => if s = "DHT11" then 0 else if s = "PI_CPU" then 1 else if s = "DS18B20" then 2 else 3
  | none => 3

/-- The MultiIndex key of a row: category codes of the two categorical
levels, then the timestamp. -/
def rowKey (r : FrameRow) : Nat × Nat × Int :=
  (sensorTypeCode r.sensor_type, sensorCode r.sensor, r.timestamp)

/-- Lexicographic "≤" on the MultiIndex keys (the order `sort_index` uses). -/
def keyLE (a b : FrameRow) : Bool :=
  decide ((rowKey a).1 < (rowKey b).1 ∨
    ((rowKey a).1 = (rowKey b).1 ∧ ((rowKey a).2.1 < (rowKey b).2.1 ∨
      ((rowKey a).2.1 = (rowKey b).2.1 ∧ (rowKey a).2.2 ≤ (rowKey b).2.2))))

/-- `keyLE` as a relation. -/
def keyRel (a b : FrameRow) : Prop := keyLE a b = true

instance : DecidableRel keyRel := fun a b => inferInstanceAs (Decidable (keyLE a b = true))

instance : IsTotal FrameRow keyRel where
  total a b := by
    simp only [keyRel, keyLE, decide_eq_true_eq]
    omega

instance : IsTrans FrameRow keyRel where
  trans a b c hab hbc := by
    simp only [keyRel, keyLE, decide_eq_true_eq] at hab hbc ⊢
    omega

/-- `DataFrame.sort_index()`: stable sort by the MultiIndex key. -/
def sort_index (f : Frame) : Frame := List.insertionSort keyRel f

/-- A frame is key-sorted when consecutive rows are `keyLE`-ordered. -/
def sortedByKey (f : Frame) : Prop := List.Sorted keyRel f

/-- Whether a frame contains no two rows sharing the
`(sensor_type, sensor, timestamp)` key triple. -/
def noDupKeys (f : Frame) : Bool :=
  decide (f.Pairwise fun a b => rowKey a ≠ rowKey b)

/-- The raw (pre-conversion) duplicate key used by
`drop_duplicates(["sensor_type", "sensor", "timestamp"])`. -/
def rawRowKey (r : FrameRow) : Option String × Option String × Int :=
  (r.sensor_type, r.sensor, r.timestamp)

/-- `drop_duplicates` on the key triple, keeping first occurrences. -/
def dedupFrameByRawKey (f : Frame) : Frame :=
  f.foldl (fun acc r =>
    if acc.any (fun x => decide (rawRowKey x = rawRowKey r)) then acc else acc ++ [r]) []

/-- `sensor.SensorData.repair_dataframe` (the revision used by
`datastore.py`): reset_index, drop the spurious `"index"` column,
`drop_duplicates` on the key triple, convert, set_index. -/
def repair_dataframe_dedup (f : Frame) : Frame := (dedupFrameByRawKey f).map convertColumnsRow

/-- The frame row obtained from one reading (`pd.DataFrame` of
`reading.dict()`): every cell present. -/
def rawRowOfReading (r : SensorReading) : FrameRow :=
  { sensor_type := some r.sensor_type
    sensor := some r.sensor
    timestamp := r.timestamp
    reading := r.reading
    unit := some r.unit }

/-- `sensordata.SensorData.make_dataframe_from_list_of_readings` (used by
the standalone queue): build the column-form frame of `reading.dict()`
rows and repair it — the column-form input is exactly `repair_dataframe`'s
success path, so the `getD` fallback is unreachable; an empty list yields
the typed empty frame. -/
def make_dataframe_from_list_of_readings (rs : List SensorReading) : Frame :=
  ((repair_dataframe { rows := rs.map rawRowOfReading, indexed := false }).map
    PdFrame.rows).getD []

/-- `sensor.SensorData.make_dataframe_from_list_of_readings` (used by
`datastore.py`): same, but through the deduplicating repair. -/
def make_dataframe_dedup (rs : List SensorReading) : Frame :=
  repair_dataframe_dedup (rs.map rawRowOfReading)

/-- Validity of one categorical cell under the pandera `isin` checks. -/
def validCell (vocab : List String) : Option String → Bool
  | some s => vocab.contains s
  | none => false

/-- `SensorData.validate` (pandera `DataFrameModel`): succeeds iff every
categorical cell is non-null and inside its vocabulary.  (The legal
`(sensor_type, sensor)` pair whitelist is *not* part of the pandera model.) -/
def validateFrame (f : Frame) : Bool :=
  f.all fun r =>
    validCell sensorTypeValues r.sensor_type && validCell sensorValues r.sensor &&
      validCell unitValues r.unit

/-! ## Write buffer (`sensorreadingqueue.py`, `SensorReadingQueue`)

The deque is the list of held readings, oldest first; `maxlen` and the
unsynced counter are carried explicitly.  The flush callback is rendered by
returning the fired batch from `add_reading`; `itertools.islice(q, a, b)`
with a negative start raises `ValueError`, rendered as `none`. -/

structure SensorReadingQueue where
  maxlen : Nat
  queue : List SensorReading
  counter : Nat
deriving DecidableEq, Repr

/-- A fresh queue (`SensorReadingQueue(maxlen)`). -/
def SensorReadingQueue.mk0 (maxlen : Nat) : SensorReadingQueue :=
  { maxlen := maxlen, queue := [], counter := 0 }

/-- `get_unsynced_queue`: below capacity, `islice(queue, 0, counter)`;
at capacity, `islice(queue, maxlen - counter, maxlen)` — the latter raises
`ValueError` (`none`) when the counter exceeds `maxlen`, since the start
index `maxlen - counter` is then negative. -/
def SensorReadingQueue.get_unsynced_queue (q : SensorReadingQueue) : Option (List SensorReading) :=
  if q.queue.length < q.maxlen then
    some (q.queue.take q.counter)
  else if q.counter ≤ q.maxlen then
    some ((q.queue.take q.maxlen).drop (q.maxlen - q.counter))
  else
    none

/-- `add_reading`: append (evicting the oldest entry at capacity), bump the
counter; when the counter reaches `maxlen`, fire the callback with
`get_unsynced_queue()` and zero the counter.  Returns the new state and the
fired batch, if any. -/
def SensorReadingQueue.add_reading (q : SensorReadingQueue) (r : SensorReading) :
    SensorReadingQueue × Option (List SensorReading) :=
  let queue' := if q.queue.length = q.maxlen then q.queue.drop 1 ++ [r] else q.queue ++ [r]
  let c := q.counter + 1
  if c = q.maxlen then
    let qFull : SensorReadingQueue := { q with queue := queue', counter := c }
    ({ qFull with counter := 0 }, some ((qFull.get_unsynced_queue).getD []))
  else
    ({ q with queue := queue', counter := c }, none)

/-- `reset_counter`: zero below capacity, `len(queue)` at capacity. -/
def SensorReadingQueue.reset_counter (q : SensorReadingQueue) : SensorReadingQueue :=
  if q.queue.length < q.maxlen then { q with counter := 0 } else { q with counter := q.queue.length }

/-- `might_contain_data_newer_than_timestamp`: the queue is non-empty and
the bound is absent or at most the newest held timestamp. -/
def SensorReadingQueue.might_contain_data_newer_than_timestamp
    (q : SensorReadingQueue) (t : Option Int) : Bool :=
  match q.queue.getLast? with
  | none => false
  | some last =>
    match t with
    | none => true
    | some ts => last.timestamp ≥ ts

/-- `might_contain_data_older_than_timestamp`: the queue is non-empty and
the bound is absent or at least the oldest held timestamp. -/
def SensorReadingQueue.might_contain_data_older_than_timestamp
    (q : SensorReadingQueue) (t : Option Int) : Bool :=
  match q.queue.head? with
  | none => false
  | some first =>
    match t with
    | none => true
    | some ts => ts ≥ first.timestamp

/-- `_find_first_entry_older_than_timestamp`: reverse scan from the newest
entry; at the first entry strictly older than `ts`, return its successor
position (as counted from the front); if none is older, return 0. -/
def SensorReadingQueue.find_first_entry_older_than_timestamp
    (q : SensorReadingQueue) (ts : Int) : Nat :=
  match q.queue.reverse.findIdx? (fun r => decide (r.timestamp < ts)) with
  | some i => q.queue.length - i
  | none => 0

/-- `_find_last_entry_newer_than_timestamp`: forward scan from the oldest
entry; return the position of the first entry strictly newer than `ts`, or
`len(queue)` if none is. -/
def SensorReadingQueue.find_last_entry_newer_than_timestamp
    (q : SensorReadingQueue) (ts : Int) : Nat :=
  (q.queue.findIdx? (fun r => decide (r.timestamp > ts))).getD q.queue.length

/-- `get_data_in_interval`: short-circuit to the empty frame when the
requested range cannot overlap the held range, then slice between the two
scan positions and build a frame from the slice. -/
def SensorReadingQueue.get_data_in_interval
    (q : SensorReadingQueue) (start stop : Option Int) : Frame :=
  if ¬ (q.might_contain_data_newer_than_timestamp start ∧
        q.might_contain_data_older_than_timestamp stop) then
    construct_empty_dataframe
  else
    let startIdx := match start with
      | none => 0
      | some ts => q.find_first_entry_older_than_timestamp ts
    let endIdx := match stop with
      | none => q.queue.length
      | some ts => q.find_last_entry_newer_than_timestamp ts
    make_dataframe_from_list_of_readings ((q.queue.take endIdx).drop startIdx)

/-! ## Sharded archive (`parquetmanager.py`, final revision)

Shard names `f"{year}-W{week:02}"` are modeled by the `(ISO year, ISO week)`
pair they encode (`_name_to_timestamp` parses the name back to this pair's
week start).  The pluggable backend is the in-memory `DictBackend` used by
the tests; `load_dataframe` returns the empty frame for a missing key, and
`save_dataframe` replaces the full shard contents. -/

abbrev ArchiveKey := Int × Int

structure DictBackend where
  archive : List (ArchiveKey × Frame)
deriving DecidableEq, Repr

/-- The `empty` property of the backend. -/
def DictBackend.empty (b : DictBackend) : Bool := b.archive.isEmpty

/-- `DictBackend.load_dataframe`: a `KeyError` yields the empty frame. -/
def DictBackend.load_dataframe (b : DictBackend) (k : ArchiveKey) : Frame :=
  match b.archive.find? (fun p => decide (p.1 = k)) with
  | some p => p.2
  | none => construct_empty_dataframe

/-- `DictBackend.save_dataframe`: store / replace the shard under its key. -/
def DictBackend.save_dataframe (b : DictBackend) (f : Frame) (k : ArchiveKey) : DictBackend :=
  if b.archive.any (fun p => decide (p.1 = k)) then
    ⟨b.archive.map fun p => if p.1 = k then (k, f) else p⟩
  else
    ⟨b.archive ++ [(k, f)]⟩

/-- `DictBackend.archive_names`. -/
def DictBackend.archive_names (b : DictBackend) : List ArchiveKey := b.archive.map (·.1)

structure ParquetManager where
  backend : DictBackend
deriving DecidableEq, Repr

/-- The `empty` property: delegates to the backend. -/
def ParquetManager.empty (m : ParquetManager) : Bool := m.backend.empty

/-- `ParquetManager._load_single_week` (extra `isocalendar` components are
swallowed by `*args`). -/
def ParquetManager.load_single_week (m : ParquetManager) (year week : Int) : Frame :=
  m.backend.load_dataframe (year, week)

/-- Python's `range(a, b + 1)` over integers. -/
def intRange (a b : Int) : List Int := (List.range (b + 1 - a).toNat).map (fun i => a + i)

/-- `ParquetManager._load_recursively`: same ISO week loads one shard; same
ISO year unions the shards from start week to end week; different ISO years
union the shards from the start week through the ISO week of Dec 28 and
recurse from Jan 4 of the following year. -/
def ParquetManager.load_recursively (m : ParquetManager) (start stop : Int) : Frame :=
  if h1 : start > stop then construct_empty_dataframe
  else
    if h2 : isoYearTs start ≠ isoYearTs stop then
      ((m.load_recursively (86400 * daysFromCivil (isoYearTs start + 1) 1 4) stop) ++
        ((intRange (isoWeekTs start) (isoWeekOf (daysFromCivil (isoYearTs start) 12 28))).map
          (fun w => m.load_single_week (isoYearTs start) w)).flatten)
    else if isoWeekTs start = isoWeekTs stop then
      m.load_single_week (isoYearTs start) (isoWeekTs start)
    else
      ((intRange (isoWeekTs start) (isoWeekTs stop)).map
        (fun w => m.load_single_week (isoYearTs start) w)).flatten
termination_by (stop - start).toNat
decreasing_by
  have hj := ts_lt_jan4_next start
  simp only [jan4day] at hj
  have hne : start ≠ stop := fun he => h2 (by rw [he])
  omega

/-- `ParquetManager._name_to_timestamp`: shard name to its week start. -/
def name_to_timestamp (k : ArchiveKey) : Int := start_of_week k.1 k.2

/-- `ParquetManager.oldest_date`: `assert not self.empty` (a failing
assertion is rendered as `none`), then the minimum shard week start. -/
def ParquetManager.oldest_date (m : ParquetManager) : Option Int :=
  if m.empty then none
  else (m.backend.archive_names.map name_to_timestamp).min?

/-- `ParquetManager.latest_date`: assertion as above, then the maximum
shard week start plus 7 days. -/
def ParquetManager.latest_date (m : ParquetManager) : Option Int :=
  if m.empty then none
  else ((m.backend.archive_names.map name_to_timestamp).max?).map (fun t => t + 86400 * 7)

/-- `ParquetManager._load_old_data`: default missing bounds from
`oldest_date` / `latest_date` (only called with a non-empty backend, where
both are `some`; the `getD 0` fallback is unreachable), then recurse. -/
def ParquetManager.load_old_data (m : ParquetManager) (start stop : Option Int) : Frame :=
  m.load_recursively (start.getD ((m.oldest_date).getD 0)) (stop.getD ((m.latest_date).getD 0))

/-- `ParquetManager.get_historic_data`: an empty backend short-circuits to
the typed empty frame (before any assertion can fire).  Otherwise the
loaded shard concatenation — an *already-indexed* frame, since every
possible shard value is a record table with the MultiIndex installed
(`ParquetFormatSensorData.load` and `construct_empty_dataframe` both end
in `set_index`, and `pd.concat` preserves the index) — is passed to
`repair_dataframe`, whose column access `df["timestamp"]` raises
`KeyError` (`none`); the trailing `.sort_index()` is never reached on a
non-empty archive. -/
def ParquetManager.get_historic_data (m : ParquetManager) (start stop : Option Int) :
    Option Frame :=
  if m.empty then some construct_empty_dataframe
  else (repair_dataframe { rows := m.load_old_data start stop, indexed := true }).map
    (fun g => sort_index g.rows)

/-- First-occurrence deduplication (`Series.drop_duplicates`). -/
def dedupInts (l : List Int) : List Int :=
  l.foldl (fun acc x => if acc.any (fun y => decide (y = x)) then acc else acc ++ [x]) []

/-- `Series.sort_values`. -/
def sortInts (l : List Int) : List Int := List.insertionSort (fun a b : Int => a ≤ b) l

/-- `ParquetManager._get_dataframe_week_ranges`: the deduplicated, sorted
week starts of the rows' ISO weeks. -/
def get_dataframe_week_ranges (f : Frame) : List Int :=
  sortInts (dedupInts (f.map fun r => start_of_week_timestamp r.timestamp))

/-- `ParquetManager._save_dataframe_by_week`: load the existing shard of
the week and concatenate it with the incoming partition — both are
already-indexed frames (the shard is a stored record table, the partition
a `.loc` slice of the caller's indexed table) — then pass the concat to
`repair_dataframe`, whose column access `df["timestamp"]` raises
`KeyError` (`none`) *before* `backend.save_dataframe` can run: on a
non-empty input nothing is ever stored. -/
def ParquetManager.save_dataframe_by_week
    (m : ParquetManager) (f : Frame) (weekStart : Int) : Option ParquetManager :=
  let key : ArchiveKey := (isoYearTs weekStart, isoWeekTs weekStart)
  (repair_dataframe { rows := m.backend.load_dataframe key ++ f, indexed := true }).map
    (fun g => ⟨m.backend.save_dataframe (sort_index g.rows) key⟩)

/-- `ParquetManager.save_dataframe`: partition the incoming rows by ISO
week (the `.loc` slice `[week, week + 7 days]` is inclusive at *both*
ends) and merge each partition into its shard; the first raising
per-week merge aborts the loop. -/
def ParquetManager.save_dataframe (m : ParquetManager) (f : Frame) : Option ParquetManager :=
  (get_dataframe_week_ranges f).foldlM
    (fun acc w =>
      acc.save_dataframe_by_week
        (f.filter fun r => decide (w ≤ r.timestamp ∧ r.timestamp ≤ w + 86400 * 7)) w)
    m

/-! ## Data store (`datastore.py`, `DataStore`)

The consolidated view only depends on what `DataStore._load_archive()`
returns; `_load_dataframe_from_file` sorts it.  The state carries that load
result as a parameter (`archiveLoad`, the older in-file manager's two-week
load — or the proxy download), plus `_dataframe`, `_reload_dataframe`, and
the queue.  The flush callback registered in `__init__` is rendered by
handing the batch returned from `add_reading` to `_update_from_queue`.
`archive_data`'s save (a destructive two-week write by the older manager)
does not feed back into `_load_archive` within the model. -/

/-- Result of `DataStore._merge_queue_with_dataframe`: the merged frame,
plus the batch logged by `log.error(f"queue=...")` when schema validation
failed. -/
structure MergeResult where
  frame : Frame
  loggedBatch : Option (List SensorReading)
deriving DecidableEq, Repr

/-- `DataStore._merge_queue_with_dataframe`: build the batch frame through
`sensor.SensorData.make_dataframe_from_list_of_readings` (which
deduplicates inside the batch); an empty batch frame returns the old frame
unchanged; a `SchemaError` from `SensorData.validate` replaces the batch
with the empty frame and logs the offending batch; finally concatenate and
`sort_index`. -/
def merge_queue_with_dataframe (old : Frame) (batch : List SensorReading) : MergeResult :=
  let newFrame := make_dataframe_dedup batch
  if newFrame = [] then { frame := old, loggedBatch := none }
  else if validateFrame newFrame then
    { frame := sort_index (old ++ newFrame), loggedBatch := none }
  else
    { frame := sort_index (old ++ construct_empty_dataframe), loggedBatch := some batch }

structure DataStore where
  archiveLoad : Frame
  dataframe : Frame
  reload : Bool
  queue : SensorReadingQueue
deriving DecidableEq, Repr

/-- `DataStore._load_archive()` through `_load_dataframe_from_file`: the
manager's load, sorted. -/
def DataStore.load_archive (ds : DataStore) : Frame := sort_index ds.archiveLoad

/-- `DataStore.__init__`: the hot cache is populated eagerly
(`self._dataframe = self._load_archive()`), the staleness flag starts
`False`, and the queue's flush callback is registered. -/
def DataStore.init (archiveLoad : Frame) (maxlen : Nat) : DataStore :=
  { archiveLoad := archiveLoad
    dataframe := sort_index archiveLoad
    reload := false
    queue := SensorReadingQueue.mk0 maxlen }

/-- The `DataStore.dataframe` property: reload the hot cache if the flag is
set or the cache is empty, fold in the unsynced batch, reset the buffer
counter, and return the merged frame.  A `ValueError` out of
`get_unsynced_queue` (`none`) aborts the read after the reload
assignments. -/
def DataStore.read (ds : DataStore) : DataStore × Option Frame :=
  let needLoad := ds.reload || decide (ds.dataframe = [])
  let df0 := if needLoad then ds.load_archive else ds.dataframe
  let rl0 := if needLoad then false else ds.reload
  match ds.queue.get_unsynced_queue with
  | none => ({ ds with dataframe := df0, reload := rl0 }, none)
  | some batch =>
    let df1 := (merge_queue_with_dataframe df0 batch).frame
    ({ ds with dataframe := df1, reload := rl0, queue := ds.queue.reset_counter }, some df1)

/-- `DataStore.add_reading` → `_write_reading_to_queue`: append to the
queue; a full queue fires `_update_from_queue`, merging the fired batch
into the current cache. -/
def DataStore.add_reading (ds : DataStore) (r : SensorReading) : DataStore :=
  let res := ds.queue.add_reading r
  match res.2 with
  | none => { ds with queue := res.1 }
  | some batch =>
    { ds with
      queue := res.1
      dataframe := (merge_queue_with_dataframe ds.dataframe batch).frame }

/-- `DataStore.archive_data`: evaluate the `dataframe` property (with all
its side effects), persist it, then set `_reload_dataframe = True`. -/
def DataStore.archive_data (ds : DataStore) : DataStore :=
  { (ds.read).1 with reload := true }

/-- One client operation against the store. -/
inductive DSOp where
  | add (r : SensorReading)
  | read
  | flush
deriving DecidableEq, Repr

def DataStore.step (ds : DataStore) : DSOp → DataStore
  | .add r => ds.add_reading r
  | .read => (ds.read).1
  | .flush => ds.archive_data

/-- Run a sequence of operations, collecting every frame returned by a
successful read. -/
def DataStore.run (ds : DataStore) : List DSOp → DataStore × List Frame
  | [] => (ds, [])
  | op :: ops =>
    let out := match op with
      | DSOp.read => ((ds.read).2).toList
      | _ => []
    let rest := (ds.step op).run ops
    (rest.1, out ++ rest.2)

/-! ## Serialization formats (`sensordata.py`)

In this section the integer timestamp of a row is read at pandas' native
*nanosecond* resolution: that is the resolution at which
`to_json(orient="table")`'s ISO/millisecond date serialization loses
information.  (Elsewhere in the development whole seconds suffice, and
every second-resolution timestamp is millisecond-aligned.) -/

/-- `ParquetFormatSensorData.serialize` / `write`:
`reset_index().to_parquet(...)` — the wire carries the full row content in
column form (parquet stores the values and the column categoricals
exactly, at full resolution; the index structure is flattened by the
`reset_index`). -/
def parquetSerialize (f : PdFrame) : Frame := f.rows

/-- `ParquetFormatSensorData.load`: `pd.read_parquet` yields the
column-form wire frame, then `SensorData.repair_dataframe` re-types the
enum columns and installs the MultiIndex — on this column-form input the
repair always succeeds. -/
def parquetLoad (w : Frame) : Option PdFrame :=
  repair_dataframe { rows := w, indexed := false }

/-- The millisecond truncation applied by `to_json`'s ISO date
serialization (`date_unit` is milliseconds): of a nanosecond-resolution
timestamp only whole milliseconds reach the wire. -/
def jsonDateMs (t : Int) : Int := t / 1000000 * 1000000

/-- `JSONFormatSensorData.serialize` / `write`:
`df.to_json(orient="table")` — a Table Schema text encoding carrying the
field metadata (categorical enum constraints and orderedness, the
`primaryKey`) together with the rows, dates serialized in ISO form at
millisecond resolution. -/
def jsonSerialize (f : PdFrame) : Frame :=
  f.rows.map fun r => { r with timestamp := jsonDateMs r.timestamp }

/-- `JSONFormatSensorData.load`: `pd.read_json(orient="table")` rebuilds
the frame from the Table Schema — the categorical dtypes (from the enum
constraints) and the `(sensor_type, sensor, timestamp)` `primaryKey` index
are restored by the schema parser; no repair pass is applied (none is
needed for the typing). -/
def jsonLoad (w : Frame) : PdFrame := { rows := w, indexed := true }

/-- `SENSOR_COMBINATIONS` (`sensor.py`). -/
def sensorCombinations : List (String × String) :=
  [("temperature", "DHT11"), ("temperature", "DS18B20"), ("temperature", "PI_CPU"),
    ("humidity", "DHT11")]

/-- §3 validity of a frame row: every enum cell inside its vocabulary and
the `(sensor_type, sensor)` pair on the whitelist. -/
def specValidRow (r : FrameRow) : Bool :=
  match r.sensor_type, r.sensor, r.unit with
  | some st, some s, some u =>
    sensorCombinations.any (fun p => decide (p = (st, s))) && unitValues.contains u
  | _, _, _ => false

/-- A valid record table: every row §3-valid. -/
def specValidFrame (f : Frame) : Bool := f.all specValidRow

/-! ### Scan characterisation for the buffer interval query (claim C3) -/

/-- Time-sortedness of the buffer contents (the §4.1 precondition). -/
def tsSortedReadings (l : List SensorReading) : Prop :=
  l.Pairwise fun x y => x.timestamp ≤ y.timestamp

lemma take_drop_cut (p : Int → Bool)
    (hmono : ∀ t1 t2 : Int, t1 ≤ t2 → p t2 = true → p t1 = true) :
    ∀ l : List SensorReading, tsSortedReadings l →
      l.take (l.countP fun r => p r.timestamp) = l.filter (fun r => p r.timestamp) ∧
      l.drop (l.countP fun r => p r.timestamp) = l.filter (fun r => ! p r.timestamp) := by
  intro l hs
  induction l with
  | nil => simp
  | cons h t ih =>
    rcases List.pairwise_cons.mp hs with ⟨hh, ht⟩
    rcases ih ht with ⟨iht, ihd⟩
    by_cases hp : p h.timestamp = true
    · have hc : (h :: t).countP (fun r => p r.timestamp) =
          t.countP (fun r => p r.timestamp) + 1 := by
        simp [List.countP_cons, hp]
      rw [hc]
      constructor
      · simp only [List.take_succ_cons, List.filter_cons, hp, if_pos]
        simp [iht]
      · simp only [List.drop_succ_cons, List.filter_cons, hp]
        simp [ihd]
    · have hz : t.countP (fun r => p r.timestamp) = 0 := by
        rw [List.countP_eq_zero]
        intro a ha hpa
        exact hp (hmono h.timestamp a.timestamp (hh a ha) hpa)
      have hc : (h :: t).countP (fun r => p r.timestamp) = 0 := by
        simp [List.countP_cons, hp, hz]
      rw [hc]
      constructor
      · have : t.filter (fun r => p r.timestamp) = [] := by
          rw [List.filter_eq_nil_iff]
          intro a ha hpa
          exact hp (hmono h.timestamp a.timestamp (hh a ha) hpa)
        simp [List.filter_cons, hp, this]
      · have : t.filter (fun r => ! p r.timestamp) = t := by
          rw [List.filter_eq_self]
          intro a ha
          simp only [Bool.not_eq_true']
          by_contra hcon
          simp only [Bool.not_eq_false] at hcon
          exact hp (hmono h.timestamp a.timestamp (hh a ha) hcon)
        simp [List.filter_cons, hp, this]

lemma findIdx?_desc_suffix (p : Int → Bool)
    (hmono : ∀ t1 t2 : Int, t1 ≤ t2 → p t2 = true → p t1 = true) :
    ∀ (lr : List SensorReading) (i : Nat),
      (lr.Pairwise fun x y => y.timestamp ≤ x.timestamp) →
      List.findIdx? (fun r => p r.timestamp) lr i =
        (if lr.countP (fun r => p r.timestamp) = 0 then none
         else some (i + (lr.length - lr.countP (fun r => p r.timestamp)))) := by
  intro lr
  induction lr with
  | nil => intro i _; simp
  | cons h t ih =>
    intro i hs
    rcases List.pairwise_cons.mp hs with ⟨hh, ht⟩
    by_cases hp : p h.timestamp = true
    · have hall : t.countP (fun r => p r.timestamp) = t.length := by
        rw [List.countP_eq_length]
        intro a ha
        exact hmono a.timestamp h.timestamp (hh a ha) hp
      rw [List.findIdx?_cons]
      simp only [hp, if_pos]
      have hc : (h :: t).countP (fun r => p r.timestamp) = t.length + 1 := by
        simp [List.countP_cons, hp, hall]
      rw [hc]
      simp
    · rw [List.findIdx?_cons]
      simp only [hp, if_neg, Bool.false_eq_true, if_false]
      rw [ih (i + 1) ht]
      have hc : (h :: t).countP (fun r => p r.timestamp) = t.countP (fun r => p r.timestamp) := by
        simp [List.countP_cons, hp]
      rw [hc]
      by_cases h0 : t.countP (fun r => p r.timestamp) = 0
      · simp [h0]
      · have hle := List.countP_le_length (fun r => p r.timestamp) (l := t)
        simp only [h0, if_neg, if_false]
        congr 1
        simp only [List.length_cons]
        omega

lemma find_first_eq_countP (q : SensorReadingQueue) (s : Int)
    (hs : tsSortedReadings q.queue) :
    q.find_first_entry_older_than_timestamp s =
      q.queue.countP (fun r => decide (r.timestamp < s)) := by
  unfold SensorReadingQueue.find_first_entry_older_than_timestamp
  have hrev : q.queue.reverse.Pairwise fun x y => y.timestamp ≤ x.timestamp := by
    rw [List.pairwise_reverse]
    exact hs
  have hmono : ∀ t1 t2 : Int, t1 ≤ t2 → decide (t2 < s) = true → decide (t1 < s) = true := by
    intro t1 t2 hle
    simp only [decide_eq_true_eq]
    omega
  rw [findIdx?_desc_suffix (fun t => decide (t < s)) hmono q.queue.reverse 0 hrev]
  rw [List.countP_reverse, List.length_reverse]
  by_cases h0 : q.queue.countP (fun r => decide (r.timestamp < s)) = 0
  · simp [h0]
  · have hle := List.countP_le_length (fun r => decide (r.timestamp < s)) (l := q.queue)
    simp only [h0, if_neg, if_false]
    omega

lemma find_last_eq_countP (q : SensorReadingQueue) (e : Int)
    (hs : tsSortedReadings q.queue) :
    q.find_last_entry_newer_than_timestamp e =
      q.queue.countP (fun r => decide (r.timestamp ≤ e)) := by
  unfold SensorReadingQueue.find_last_entry_newer_than_timestamp
  have key : ∀ (l : List SensorReading) (i : Nat),
      (l.Pairwise fun x y => x.timestamp ≤ y.timestamp) →
      (List.findIdx? (fun r => decide (r.timestamp > e)) l i).getD (i + l.length) =
        i + l.countP (fun r => decide (r.timestamp ≤ e)) := by
    intro l
    induction l with
    | nil => intro i _; simp
    | cons h t ih =>
      intro i hsl
      rcases List.pairwise_cons.mp hsl with ⟨hh, ht⟩
      rw [List.findIdx?_cons]
      by_cases hp : h.timestamp > e
      · simp only [decide_eq_true_eq, hp, if_pos]
        have hz : t.countP (fun r => decide (r.timestamp ≤ e)) = 0 := by
          rw [List.countP_eq_zero]
          intro a ha
          have := hh a ha
          simp only [decide_eq_true_eq]
          omega
        simp [List.countP_cons, hz]
        omega
      · simp only [hp, decide_eq_true_eq, if_neg, if_false]
        have := ih (i + 1) ht
        simp only [List.length_cons] at this ⊢
        have harr : i + 1 + t.length = i + (t.length + 1) := by omega
        rw [harr] at this
        rw [this]
        have hpe : decide (h.timestamp ≤ e) = true := by
          simp only [decide_eq_true_eq]
          omega
        simp [List.countP_cons, hpe]
        omega
  have := key q.queue 0 hs
  simpa using this

lemma le_getLast_of_sorted :
    ∀ (l : List SensorReading), tsSortedReadings l →
      ∀ last, l.getLast? = some last → ∀ x ∈ l, x.timestamp ≤ last.timestamp := by
  intro l
  induction l with
  | nil => intro _ last h; simp at h
  | cons h t ih =>
    intro hs last hlast x hx
    rcases List.pairwise_cons.mp hs with ⟨hh, ht⟩
    cases t with
    | nil =>
      simp only [List.getLast?_singleton, Option.some.injEq] at hlast
      subst hlast
      simp only [List.mem_singleton] at hx
      subst hx
      exact le_refl _
    | cons h2 t2 =>
      rw [List.getLast?_cons_cons] at hlast
      have hlastmem : last ∈ h2 :: t2 := by
        have hne : (h2 :: t2 : List SensorReading) ≠ [] := by simp
        rw [List.getLast?_eq_getLast_of_ne_nil hne] at hlast
        simp only [Option.some.injEq] at hlast
        subst hlast
        exact List.getLast_mem hne
      rcases List.mem_cons.mp hx with hxh | hxt
      · subst hxh
        exact hh last hlastmem
      · exact ih ht last hlast x hxt

lemma head_le_of_sorted (l : List SensorReading) (hs : tsSortedReadings l)
    (first : SensorReading) (hfirst : l.head? = some first) :
    ∀ x ∈ l, first.timestamp ≤ x.timestamp := by
  cases l with
  | nil => simp at hfirst
  | cons h t =>
    simp only [List.head?_cons, Option.some.injEq] at hfirst
    subst hfirst
    rcases List.pairwise_cons.mp hs with ⟨hh, _⟩
    intro x hx
    rcases List.mem_cons.mp hx with hxh | hxt
    · subst hxh; exact le_refl _
    · exact hh x hxt

lemma get_data_in_interval_eq_filter (q : SensorReadingQueue) (s e : Int)
    (hs : tsSortedReadings q.queue) (hse : s ≤ e) :
    q.get_data_in_interval (some s) (some e) =
      make_dataframe_from_list_of_readings
        (q.queue.filter fun r => decide (s ≤ r.timestamp ∧ r.timestamp ≤ e)) := by
  unfold SensorReadingQueue.get_data_in_interval
  by_cases hg : q.might_contain_data_newer_than_timestamp (some s) = true ∧
      q.might_contain_data_older_than_timestamp (some e) = true
  · rw [if_neg (by simpa using hg)]
    have hfl := find_last_eq_countP q e hs
    have hff := find_first_eq_countP q s hs
    simp only [hfl, hff]
    congr 1
    have hmono_le : ∀ t1 t2 : Int, t1 ≤ t2 → decide (t2 ≤ e) = true → decide (t1 ≤ e) = true := by
      intro t1 t2 h
      simp only [decide_eq_true_eq]
      omega
    have hmono_lt : ∀ t1 t2 : Int, t1 ≤ t2 → decide (t2 < s) = true → decide (t1 < s) = true := by
      intro t1 t2 h
      simp only [decide_eq_true_eq]
      omega
    rw [(take_drop_cut (fun t => decide (t ≤ e)) hmono_le q.queue hs).1]
    have hsf : tsSortedReadings (q.queue.filter fun r => decide (r.timestamp ≤ e)) :=
      List.Pairwise.filter _ hs
    have hcnt : (q.queue.filter fun r => decide (r.timestamp ≤ e)).countP
        (fun r => decide (r.timestamp < s)) =
        q.queue.countP (fun r => decide (r.timestamp < s)) := by
      rw [List.countP_filter]
      apply List.countP_congr
      intro x _
      constructor
      · intro hx
        simp only [Bool.and_eq_true, decide_eq_true_eq] at hx
        simp only [decide_eq_true_eq]
        exact hx.1
      · intro hx
        simp only [decide_eq_true_eq] at hx
        simp only [Bool.and_eq_true, decide_eq_true_eq]
        exact ⟨hx, by omega⟩
    rw [← hcnt]
    rw [(take_drop_cut (fun t => decide (t < s)) hmono_lt _ hsf).2]
    rw [List.filter_filter]
    apply List.filter_congr
    intro x _
    rw [← decide_not, ← Bool.decide_and, decide_eq_decide]
    omega
  · rw [if_pos (by simpa using hg)]
    have hempty : q.queue.filter (fun r => decide (s ≤ r.timestamp ∧ r.timestamp ≤ e)) = [] := by
      rw [List.filter_eq_nil_iff]
      intro a ha
      simp only [decide_eq_true_eq, not_and, not_le]
      intro hsa
      rw [Classical.not_and_iff_or_not_not] at hg
      rcases hg with hA | hB
      · unfold SensorReadingQueue.might_contain_data_newer_than_timestamp at hA
        cases hlast : q.queue.getLast? with
        | none =>
          rw [List.getLast?_eq_none_iff] at hlast
          simp [hlast] at ha
        | some last =>
          simp only [hlast] at hA
          have hlt : last.timestamp < s := by
            by_contra hcon
            push_neg at hcon
            apply hA
            simp only [ge_iff_le, decide_eq_true_eq]
            omega
          have := le_getLast_of_sorted q.queue hs last hlast a ha
          omega
      · unfold SensorReadingQueue.might_contain_data_older_than_timestamp at hB
        cases hfirst : q.queue.head? with
        | none =>
          rw [List.head?_eq_none_iff] at hfirst
          simp [hfirst] at ha
        | some first =>
          simp only [hfirst] at hB
          have hlt : e < first.timestamp := by
            by_contra hcon
            push_neg at hcon
            apply hB
            simp only [ge_iff_le, decide_eq_true_eq]
            omega
          have := head_le_of_sorted q.queue hs first hfirst a ha
          omega
    rw [hempty]
    rfl

/-! ### Sortedness of the consolidated view (claim C2) -/

lemma sortedByKey_sort_index (f : Frame) : sortedByKey (sort_index f) :=
  List.sorted_insertionSort keyRel f

lemma sortedByKey_merge (old : Frame) (batch : List SensorReading) (h : sortedByKey old) :
    sortedByKey (merge_queue_with_dataframe old batch).frame := by
  unfold merge_queue_with_dataframe
  dsimp only
  split
  · exact h
  · split
    · exact sortedByKey_sort_index _
    · exact sortedByKey_sort_index _

lemma sortedByKey_ite_load (ds : DataStore) (h : sortedByKey ds.dataframe) (c : Bool) :
    sortedByKey (if c then ds.load_archive else ds.dataframe) := by
  cases c
  · simpa using h
  · simpa using sortedByKey_sort_index ds.archiveLoad

lemma read_sorted (ds : DataStore) (h : sortedByKey ds.dataframe) :
    sortedByKey (ds.read).1.dataframe ∧ ∀ f, (ds.read).2 = some f → sortedByKey f := by
  unfold DataStore.read
  cases hq : ds.queue.get_unsynced_queue with
  | none =>
    exact ⟨sortedByKey_ite_load ds h _, by intro f hf; cases hf⟩
  | some batch =>
    refine ⟨sortedByKey_merge _ _ (sortedByKey_ite_load ds h _), ?_⟩
    intro f hf
    simp only [Option.some.injEq] at hf
    subst hf
    exact sortedByKey_merge _ _ (sortedByKey_ite_load ds h _)

lemma step_sorted (ds : DataStore) (op : DSOp) (h : sortedByKey ds.dataframe) :
    sortedByKey (ds.step op).dataframe := by
  cases op with
  | add r =>
    show sortedByKey (ds.add_reading r).dataframe
    unfold DataStore.add_reading
    cases hq : (ds.queue.add_reading r).2 with
    | none => dsimp only; rw [hq]; exact h
    | some batch => dsimp only; rw [hq]; exact sortedByKey_merge _ _ h
  | read => exact (read_sorted ds h).1
  | flush =>
    show sortedByKey (ds.archive_data).dataframe
    unfold DataStore.archive_data
    exact (read_sorted ds h).1

lemma run_outputs_sorted (ops : List DSOp) : ∀ ds : DataStore, sortedByKey ds.dataframe →
    ∀ f ∈ (ds.run ops).2, sortedByKey f := by
  induction ops with
  | nil => intro ds _ f hf; simp [DataStore.run] at hf
  | cons op ops ih =>
    intro ds h f hf
    unfold DataStore.run at hf
    dsimp only at hf
    rcases List.mem_append.mp hf with hf1 | hf2
    · cases op with
      | add r => simp at hf1
      | flush => simp at hf1
      | read =>
        simp only [Option.mem_toList, Option.mem_def] at hf1
        exact (read_sorted ds h).2 f hf1
    · exact ih (ds.step op) (step_sorted ds op h) f hf2

/-! ### Unfold equations for the historic loader (claims C1, C10) -/

lemma load_recursively_diff_year (m : ParquetManager) (start stop : Int)
    (h1 : ¬ start > stop) (h2 : isoYearTs start ≠ isoYearTs stop) :
    m.load_recursively start stop =
      m.load_recursively (86400 * daysFromCivil (isoYearTs start + 1) 1 4) stop ++
        ((intRange (isoWeekTs start) (isoWeekOf (daysFromCivil (isoYearTs start) 12 28))).map
          (fun w => m.load_single_week (isoYearTs start) w)).flatten := by
  rw [ParquetManager.load_recursively]
  rw [dif_neg h1, dif_pos h2]

lemma load_recursively_same_week (m : ParquetManager) (start stop : Int)
    (h1 : ¬ start > stop) (h2 : ¬ isoYearTs start ≠ isoYearTs stop)
    (h3 : isoWeekTs start = isoWeekTs stop) :
    m.load_recursively start stop = m.load_single_week (isoYearTs start) (isoWeekTs start) := by
  rw [ParquetManager.load_recursively]
  rw [dif_neg h1, dif_neg h2, if_pos h3]

lemma load_recursively_same_year (m : ParquetManager) (start stop : Int)
    (h1 : ¬ start > stop) (h2 : ¬ isoYearTs start ≠ isoYearTs stop)
    (h3 : ¬ isoWeekTs start = isoWeekTs stop) :
    m.load_recursively start stop =
      ((intRange (isoWeekTs start) (isoWeekTs stop)).map
        (fun w => m.load_single_week (isoYearTs start) w)).flatten := by
  rw [ParquetManager.load_recursively]
  rw [dif_neg h1, dif_neg h2, if_neg h3]

lemma get_historic_data_nonempty (m : ParquetManager) (s e : Option Int)
    (hne : m.empty = false) : m.get_historic_data s e = none := by
  unfold ParquetManager.get_historic_data
  rw [if_neg (by simp [hne])]
  rfl

lemma save_dataframe_by_week_none (m : ParquetManager) (f : Frame) (w : Int) :
    m.save_dataframe_by_week f w = none := rfl

lemma dedup_foldl_length (l : List Int) :
    ∀ acc : List Int,
      acc.length ≤ (l.foldl (fun acc x =>
        if acc.any (fun y => decide (y = x)) then acc else acc ++ [x]) acc).length := by
  induction l with
  | nil => intro acc; exact le_refl _
  | cons x xs ih =>
    intro acc
    simp only [List.foldl_cons]
    refine le_trans ?_ (ih _)
    by_cases h : acc.any (fun y => decide (y = x)) = true
    · rw [if_pos h]
    · rw [if_neg h]
      simp

lemma dedupInts_ne_nil {l : List Int} (h : l ≠ []) : dedupInts l ≠ [] := by
  rcases List.exists_cons_of_ne_nil h with ⟨x, xs, rfl⟩
  have hd : dedupInts (x :: xs) =
      xs.foldl (fun acc y => if acc.any (fun z => decide (z = y)) then acc else acc ++ [y]) [x] :=
    rfl
  rw [hd]
  intro hcon
  have := dedup_foldl_length xs [x]
  rw [hcon] at this
  simp at this

lemma sortInts_ne_nil {l : List Int} (h : l ≠ []) : sortInts l ≠ [] := by
  intro hcon
  have hp := List.perm_insertionSort (fun a b : Int => a ≤ b) l
  unfold sortInts at hcon
  rw [hcon] at hp
  exact h (List.Perm.nil_eq hp).symm

lemma get_dataframe_week_ranges_ne_nil {f : Frame} (h : f ≠ []) :
    get_dataframe_week_ranges f ≠ [] := by
  unfold get_dataframe_week_ranges
  apply sortInts_ne_nil
  apply dedupInts_ne_nil
  simpa using h

lemma save_dataframe_none (m : ParquetManager) (f : Frame) (h : f ≠ []) :
    m.save_dataframe f = none := by
  rcases List.exists_cons_of_ne_nil (get_dataframe_week_ranges_ne_nil h) with ⟨w, ws, hcons⟩
  unfold ParquetManager.save_dataframe
  rw [hcons, List.foldlM_cons, save_dataframe_by_week_none]
  rfl

/-! ### Concrete scenario data -/

/-- A valid temperature/DHT11 row at timestamp `t` with payload `v`. -/
def tRow (t v : Int) : FrameRow :=
  { sensor_type := some "temperature", sensor := some "DHT11", timestamp := t,
    reading := v, unit := some "C" }

/-- A valid humidity/DHT11 row at timestamp `t` with payload `v`. -/
def hRow (t v : Int) : FrameRow :=
  { sensor_type := some "humidity", sensor := some "DHT11", timestamp := t,
    reading := v, unit := some "%" }

/-- A valid temperature/DHT11 reading at timestamp `t`. -/
def tReading (t : Int) : SensorReading :=
  { sensor_type := "temperature", sensor := "DHT11", timestamp := t, reading := 34, unit := "C" }

/-- A valid humidity/DHT11 reading at timestamp `t`. -/
def hReading (t : Int) : SensorReading :=
  { sensor_type := "humidity", sensor := "DHT11", timestamp := t, reading := 50, unit := "%" }

/-- A reading whose `sensor` value is outside the `Sensor` vocabulary
(instances of the pydantic class carry plain strings; this models a value
that bypassed or postdates construction-time validation). -/
def badReading : SensorReading :=
  { sensor_type := "temperature", sensor := "banana", timestamp := 5, reading := 1, unit := "C" }

/-- Shard content for 2023-W51 (week starting day 19709 = 2023-12-18):
one row on 2023-12-21. -/
def shard51 : Frame := [tRow (86400 * 19712) 21]

/-- Shard content for 2023-W52 (week starting day 19716 = 2023-12-25):
one row on 2023-12-28. -/
def shard52 : Frame := [tRow (86400 * 19719) 22]

/-- Shard content for 2024-W01 (week starting day 19723 = 2024-01-01):
one row on 2024-01-02. -/
def shard2401 : Frame := [tRow (86400 * 19724) 23]

/-- The year-boundary scenario archive holding exactly shards `2023-W51`,
`2023-W52` and `2024-W01`. -/
def archive3 : ParquetManager :=
  { backend := { archive := [((2023, 51), shard51), ((2023, 52), shard52), ((2024, 1), shard2401)] } }

/-- Mid-2023-W52: 2023-12-28 12:00. -/
def midW52 : Int := 86400 * 19719 + 43200

/-- Mid-2024-W01: 2024-01-04 12:00. -/
def midW01 : Int := 86400 * 19726 + 43200

lemma scenario_load_recursively :
    archive3.load_recursively midW52 midW01 = shard2401 ++ shard52 := by
  rw [load_recursively_diff_year archive3 midW52 midW01 (by decide) (by decide)]
  rw [load_recursively_same_week archive3 (86400 * daysFromCivil (isoYearTs midW52 + 1) 1 4)
    midW01 (by decide) (by decide) (by decide)]
  decide

/-! ### Round-trip support (claim C6) -/

/-- A §3-valid row whose (nanosecond-resolution) timestamp is *not*
millisecond-aligned: 1500 ns past the epoch. -/
def subMsRow : FrameRow :=
  { sensor_type := some "temperature", sensor := some "DHT11", timestamp := 1500,
    reading := 7, unit := some "C" }

lemma convert_valid_row (r : FrameRow) (h : specValidRow r = true) : convertColumnsRow r = r := by
  rcases r with ⟨st, s, t, v, u⟩
  cases st with
  | none => simp [specValidRow] at h
  | some st' =>
    cases s with
    | none => simp [specValidRow] at h
    | some s' =>
      cases u with
      | none => simp [specValidRow] at h
      | some u' =>
        simp only [specValidRow, sensorCombinations, unitValues, List.any_cons, List.any_nil,
          Bool.or_false, Bool.and_eq_true, Bool.or_eq_true, decide_eq_true_eq, Prod.mk.injEq,
          List.contains_cons, List.contains_nil, beq_iff_eq] at h
        obtain ⟨hpair, hunit⟩ := h
        unfold convertColumnsRow convertCell
        rcases hpair with ⟨h1, h2⟩ | ⟨h1, h2⟩ | ⟨h1, h2⟩ | ⟨h1, h2⟩ <;>
          subst h1 <;> subst h2 <;>
          rcases hunit with h3 | h3 <;> subst h3 <;> rfl

lemma convert_valid_frame (f : Frame) (h : specValidFrame f = true) :
    f.map convertColumnsRow = f := by
  unfold specValidFrame at h
  rw [List.all_eq_true] at h
  induction f with
  | nil => rfl
  | cons r rs ih =>
    simp only [List.map_cons]
    rw [convert_valid_row r (h r (List.mem_cons_self r rs)),
      ih fun x hx => h x (List.mem_cons_of_mem r hx)]

lemma repair_valid_columns (f : Frame) (h : specValidFrame f = true) :
    repair_dataframe { rows := f, indexed := false } =
      some { rows := f, indexed := true } := by
  have hr : repair_dataframe { rows := f, indexed := false } =
      some { rows := f.map convertColumnsRow, indexed := true } := rfl
  rw [hr, convert_valid_frame f h]

/-- Whether the rows of a frame are ascending in timestamp alone. -/
def tsAscending (f : Frame) : Bool :=
  decide (f.Pairwise fun x y => x.timestamp ≤ y.timestamp)

instance (f : Frame) : Decidable (sortedByKey f) :=
  inferInstanceAs (Decidable (List.Pairwise keyRel f))

instance (l : List SensorReading) : Decidable (tsSortedReadings l) :=
  inferInstanceAs (Decidable (List.Pairwise (fun x y : SensorReading => x.timestamp ≤ y.timestamp) l))



/-! # Claim theorems -/

/-- Claim C9 (confirmed): `start_of_week(y, w+1)` is exactly one week after
`start_of_week(y, w)`; `start_of_week(y, 1)` is a Monday on or before Jan 4
of `y`; `end_of_week(y, w) = start_of_week(y, w) + 7 days`; and concretely
`start_of_week(2023, 1)` = 2023-01-02 while `end_of_week(2023, 1)` =
2023-01-09. -/
theorem C9_theorem :
    (∀ year week : Int,
      start_of_week year (week + 1) = start_of_week year week + 86400 * 7) ∧
    (∀ year : Int, weekdayOf (dayOfTs (start_of_week year 1)) = 0 ∧
      start_of_week year 1 ≤ 86400 * daysFromCivil year 1 4) ∧
    (∀ year week : Int, end_of_week year week = start_of_week year week + 86400 * 7) ∧
    start_of_week 2023 1 = 86400 * daysFromCivil 2023 1 2 ∧
    end_of_week 2023 1 = 86400 * daysFromCivil 2023 1 9 := by
  refine ⟨?_, ?_, ?_, by decide, by decide⟩
  · intro year week
    simp only [start_of_week]
    ring
  · intro year
    simp only [start_of_week, weekdayOf, dayOfTs]
    omega
  · intro year week
    rfl

/-- Claim C10 (confirmed): on an archive whose backend holds no shards,
`oldest_date()` and `latest_date()` fail their non-emptiness assertion
(`none`), while `get_historic_data` returns the correctly-typed empty
frame (a `some` value — no exception) for any bounds, without reaching
those assertions. -/
theorem C10_theorem (m : ParquetManager) (hm : m.empty = true) (s e : Option Int) :
    m.get_historic_data s e = some construct_empty_dataframe ∧
    m.oldest_date = none ∧
    m.latest_date = none := by
  unfold ParquetManager.get_historic_data ParquetManager.oldest_date ParquetManager.latest_date
  rw [if_pos hm, if_pos hm, if_pos hm]
  exact ⟨rfl, rfl, rfl⟩

/-- Witness for C10 at the concrete empty archive with one concrete bound
pair. -/
theorem C10_witness :
    (⟨⟨[]⟩⟩ : ParquetManager).empty = true ∧
    (⟨⟨[]⟩⟩ : ParquetManager).get_historic_data (some 0) none = some construct_empty_dataframe ∧
    (⟨⟨[]⟩⟩ : ParquetManager).oldest_date = none ∧
    (⟨⟨[]⟩⟩ : ParquetManager).latest_date = none :=
  ⟨rfl, (C10_theorem ⟨⟨[]⟩⟩ rfl (some 0) none).1, (C10_theorem ⟨⟨[]⟩⟩ rfl (some 0) none).2.1,
    (C10_theorem ⟨⟨[]⟩⟩ rfl (some 0) none).2.2⟩

/-- Claim C4 (code_bug): evaluation of the buffer at the failing input.
With capacity 2, the second `add` fires the callback with both readings;
but after `reset_counter` on the full buffer (which sets the counter to
`len(buffer) = 2`), two further `add` calls never fire the callback — the
counter moves to 3 and 4, skipping past `maxlen` — contradicting the claim
that a subsequent full cycle still triggers.  Below capacity,
`reset_counter` zeroes the counter as claimed. -/
theorem C4_theorem :
    (SensorReadingQueue.reset_counter ⟨2, [tReading 1], 1⟩).counter = 0 ∧
    (SensorReadingQueue.reset_counter ⟨2, [tReading 1, tReading 2], 0⟩).counter = 2 ∧
    (((SensorReadingQueue.mk0 2).add_reading (tReading 1)).1.add_reading (tReading 2)).2 =
      some [tReading 1, tReading 2] ∧
    (((((SensorReadingQueue.mk0 2).add_reading (tReading 1)).1.add_reading
      (tReading 2)).1.reset_counter.add_reading (tReading 3)).2 = none) ∧
    ((((((SensorReadingQueue.mk0 2).add_reading (tReading 1)).1.add_reading
      (tReading 2)).1.reset_counter.add_reading (tReading 3)).1.add_reading (tReading 4)).2 =
        none) ∧
    ((((((SensorReadingQueue.mk0 2).add_reading (tReading 1)).1.add_reading
      (tReading 2)).1.reset_counter.add_reading (tReading 3)).1.add_reading
        (tReading 4)).1.counter = 4) := by
  decide

/-- Claim C5 (code_bug): evaluation of the archive at the failing input.
Saving a valid single-row table into an empty archive never reaches
`backend.save_dataframe`: the week partitioning does run (the row's week
start is 2023-12-25), but `_save_dataframe_by_week` passes the
already-indexed concatenation of the existing shard and the partition to
`repair_dataframe`, which raises `KeyError('timestamp')` (`none`) first —
so no merged, deduplicated shard is ever produced, for this input or for
any save of a non-empty table into any archive state. -/
theorem C5_theorem :
    (⟨⟨[]⟩⟩ : ParquetManager).save_dataframe [tRow (86400 * 19719) 9] = none ∧
    get_dataframe_week_ranges [tRow (86400 * 19719) 9] = [86400 * 19716] ∧
    (∀ (m : ParquetManager) (f : Frame), f ≠ [] → m.save_dataframe f = none) := by
  refine ⟨save_dataframe_none _ _ (by decide), by decide, ?_⟩
  intro m f hf
  exact save_dataframe_none m f hf

/-- Witness for C5's universal clause at a concrete archive state and
table. -/
theorem C5_witness :
    ([tRow (86400 * 19719) 9] : Frame) ≠ [] ∧
    archive3.save_dataframe [tRow (86400 * 19719) 9] = none :=
  ⟨by decide, (C5_theorem.2.2) archive3 [tRow (86400 * 19719) 9] (by decide)⟩

/-- Counterexample to claim C8 as stated: a freshly constructed store with
a non-empty archive has its staleness flag `False` (not `Stale`) and its
hot cache already populated at construction (not lazily on first read). -/
theorem C8_counterexample :
    (DataStore.init [tRow 0 1] 5).reload = false ∧
    (DataStore.init [tRow 0 1] 5).dataframe = [tRow 0 1] := by
  decide

/-- Claim C8 (corrected): the staleness flag is a two-state machine, but
its initial state is Fresh (`False`), with the hot cache eagerly populated
at construction; a (successful or failed) read always leaves the flag
Fresh, `archive_data` sets it Stale, and `add_reading` preserves it. -/
theorem C8_theorem (archiveLoad : Frame) (maxlen : Nat) (ds : DataStore) (r : SensorReading) :
    (DataStore.init archiveLoad maxlen).reload = false ∧
    (DataStore.init archiveLoad maxlen).dataframe = sort_index archiveLoad ∧
    (ds.read).1.reload = false ∧
    (ds.archive_data).reload = true ∧
    (ds.add_reading r).reload = ds.reload := by
  refine ⟨rfl, rfl, ?_, rfl, ?_⟩
  · unfold DataStore.read
    cases hq : ds.queue.get_unsynced_queue <;> cases hr : ds.reload <;> simp
  · unfold DataStore.add_reading
    cases hq : (ds.queue.add_reading r).2 <;> simp [hq]

/-- Claim C1 (code_bug): evaluation of the archive at the failing input.
The recursion itself assembles exactly the claimed union — for start ≤ end
in different ISO years it loads the shards from start's ISO week through
the ISO week of Dec 28 and restarts at Jan 4 of the following year, and on
the archive holding shards 2023-W51, 2023-W52, 2024-W01 with bounds
mid-2023-W52 / mid-2024-W01 it loads exactly shards 2024-W01 and 2023-W52.
But `get_historic_data` then hands this already-indexed concatenation to
`repair_dataframe`, which raises `KeyError('timestamp')` (`none`): on
every non-empty archive the query raises instead of returning the
deduplicated, sorted union its own docstring describes. -/
theorem C1_theorem :
    archive3.load_recursively midW52 midW01 = shard2401 ++ shard52 ∧
    archive3.get_historic_data (some midW52) (some midW01) = none ∧
    (∀ (m : ParquetManager) (s e : Int), m.empty = false → s ≤ e →
      isoYearTs s ≠ isoYearTs e →
      m.load_recursively s e =
        m.load_recursively (86400 * daysFromCivil (isoYearTs s + 1) 1 4) e ++
          ((intRange (isoWeekTs s) (isoWeekOf (daysFromCivil (isoYearTs s) 12 28))).map
            (fun w => m.load_single_week (isoYearTs s) w)).flatten) ∧
    (∀ (m : ParquetManager) (s e : Option Int), m.empty = false →
      m.get_historic_data s e = none) := by
  refine ⟨scenario_load_recursively, ?_, ?_, ?_⟩
  · exact get_historic_data_nonempty archive3 (some midW52) (some midW01) (by decide)
  · intro m s e hne hse hyr
    exact load_recursively_diff_year m s e (by omega) hyr
  · intro m s e hne
    exact get_historic_data_nonempty m s e hne

/-- Witness for C1's universal clauses at the scenario archive and the
concrete year-straddling bounds. -/
theorem C1_witness :
    archive3.empty = false ∧ midW52 ≤ midW01 ∧ isoYearTs midW52 ≠ isoYearTs midW01 ∧
    archive3.load_recursively midW52 midW01 =
      archive3.load_recursively (86400 * daysFromCivil (isoYearTs midW52 + 1) 1 4) midW01 ++
        ((intRange (isoWeekTs midW52)
            (isoWeekOf (daysFromCivil (isoYearTs midW52) 12 28))).map
          (fun w => archive3.load_single_week (isoYearTs midW52) w)).flatten ∧
    archive3.get_historic_data (some midW52) (some midW01) = none :=
  ⟨by decide, by decide, by decide,
    C1_theorem.2.2.1 archive3 midW52 midW01 (by decide) (by decide) (by decide),
    C1_theorem.2.2.2 archive3 (some midW52) (some midW01) (by decide)⟩

/-- Counterexample to claim C2 as stated: with buffer capacity 2 and an
empty archive, the operation sequence add, add, read, read makes the
second read return a table in which both key triples occur twice (the
unsynced slice is re-merged after `reset_counter` marked the full buffer
unsynced), and the first read's table is not ascending in timestamp (the
sort is by the `(sensor_type, sensor, timestamp)` key, which puts the
later temperature row before the earlier humidity row). -/
theorem C2_counterexample :
    ((DataStore.init [] 2).run
        [DSOp.add (tReading 1), DSOp.add (hReading 0), DSOp.read, DSOp.read]).2 =
      [[tRow 1 34, hRow 0 50], [tRow 1 34, tRow 1 34, hRow 0 50, hRow 0 50]] ∧
    noDupKeys [tRow 1 34, tRow 1 34, hRow 0 50, hRow 0 50] = false ∧
    tsAscending [tRow 1 34, hRow 0 50] = false := by
  decide

/-- Claim C2 (corrected): every frame returned by a read of the
consolidated view — after folding in the write buffer's unsynced slice and
resetting the buffer — is sorted ascending by the index key
`(sensor_type, sensor_id, timestamp)`, for every archive content, buffer
capacity and preceding operation sequence.  (Neither global
timestamp-ascending order nor key uniqueness holds; see the
counterexample.) -/
theorem C2_theorem (archiveLoad : Frame) (maxlen : Nat) (ops : List DSOp) :
    ∀ f ∈ ((DataStore.init archiveLoad maxlen).run ops).2, sortedByKey f := by
  apply run_outputs_sorted
  exact sortedByKey_sort_index archiveLoad

/-- Witness for C2 at a concrete one-add-one-read run. -/
theorem C2_witness :
    [tRow 1 34] ∈ ((DataStore.init [] 2).run [DSOp.add (tReading 1), DSOp.read]).2 ∧
    sortedByKey [tRow 1 34] :=
  ⟨by decide, C2_theorem [] 2 [DSOp.add (tReading 1), DSOp.read] [tRow 1 34] (by decide)⟩

/-- Counterexample to claim C3 as stated: the buffer interval query is
inclusive of `end`, not half-open — a buffer holding one reading at
timestamp 5 returns it for the query `[0, 5)`, where the half-open reading
predicts the empty table. -/
theorem C3_counterexample :
    (⟨10, [tReading 5], 0⟩ : SensorReadingQueue).get_data_in_interval (some 0) (some 5) =
      [tRow 5 34] ∧
    ¬ ((⟨10, [tReading 5], 0⟩ : SensorReadingQueue).get_data_in_interval (some 0) (some 5) =
      make_dataframe_from_list_of_readings
        ([tReading 5].filter fun r => decide (0 ≤ r.timestamp ∧ r.timestamp < 5))) := by
  decide

/-- Claim C3 (corrected): for a buffer whose held readings have
non-decreasing timestamps and bounds start ≤ end, `get_data_in_interval`
returns exactly the held rows with timestamp in the *closed* interval
`[start, end]` (rows at `end` included) as a new frame, and returns the
empty frame whenever the requested range does not overlap the held
`[oldest, newest]` interval. -/
theorem C3_theorem (q : SensorReadingQueue) (hs : tsSortedReadings q.queue)
    (s e : Int) (hse : s ≤ e) :
    q.get_data_in_interval (some s) (some e) =
      make_dataframe_from_list_of_readings
        (q.queue.filter fun r => decide (s ≤ r.timestamp ∧ r.timestamp ≤ e)) ∧
    (∀ first lastr, q.queue.head? = some first → q.queue.getLast? = some lastr →
      e < first.timestamp ∨ lastr.timestamp < s →
      q.get_data_in_interval (some s) (some e) = construct_empty_dataframe) := by
  refine ⟨get_data_in_interval_eq_filter q s e hs hse, ?_⟩
  intro first lastr hfirst hlast hdisj
  rw [get_data_in_interval_eq_filter q s e hs hse]
  have hempty : q.queue.filter (fun r => decide (s ≤ r.timestamp ∧ r.timestamp ≤ e)) = [] := by
    rw [List.filter_eq_nil_iff]
    intro a ha
    simp only [decide_eq_true_eq, not_and, not_le]
    intro hsa
    rcases hdisj with hd | hd
    · have := head_le_of_sorted q.queue hs first hfirst a ha
      omega
    · have := le_getLast_of_sorted q.queue hs lastr hlast a ha
      omega
  rw [hempty]
  rfl

/-- Witness for C3 at a concrete sorted two-element buffer and bounds
`[2, 3]`. -/
theorem C3_witness :
    tsSortedReadings [tReading 1, tReading 3] ∧ (2 : Int) ≤ 3 ∧
    (⟨10, [tReading 1, tReading 3], 0⟩ : SensorReadingQueue).get_data_in_interval
        (some 2) (some 3) =
      make_dataframe_from_list_of_readings
        ([tReading 1, tReading 3].filter fun r => decide (2 ≤ r.timestamp ∧ r.timestamp ≤ 3)) :=
  ⟨by decide, by decide,
    (C3_theorem ⟨10, [tReading 1, tReading 3], 0⟩ (by decide) 2 3 (by decide)).1⟩

/-- Counterexample to claim C6 as stated: the text-table (JSON) round trip
does not restore the enum typing — `load` applies no repair, so even for a
valid one-row table (and for the empty table) the round-tripped frame
differs from the original in its dtype state, exactly the §4.4 caveat. -/
theorem C6_counterexample :
    specValidFrame [subMsRow] = true ∧
    jsonLoad (jsonSerialize ⟨[subMsRow], true⟩) ≠ (⟨[subMsRow], true⟩ : PdFrame) ∧
    (jsonLoad (jsonSerialize ⟨[subMsRow], true⟩)).rows =
      [{ sensor_type := some "temperature", sensor := some "DHT11", timestamp := 0,
         reading := 7, unit := some "C" }] := by
  decide

/-- Claim C6 (corrected): for every §3-valid indexed record table (size 0
or N), the columnar-binary (parquet) round trip is the identity — its
`load` ends with the repair pass, which succeeds on the column-form wire;
the text-table (JSON) round trip restores the typing and the index from
the Table Schema, but serializes dates at millisecond precision, so
`deserialize(serialize(t)) = t` holds exactly when every timestamp of `t`
is millisecond-aligned (sub-millisecond timestamps are truncated on the
wire). -/
theorem C6_theorem :
    (∀ f : PdFrame, f.indexed = true → specValidFrame f.rows = true →
      parquetLoad (parquetSerialize f) = some f) ∧
    (∀ f : PdFrame, f.indexed = true →
      (∀ r ∈ f.rows, r.timestamp % 1000000 = 0) →
      jsonLoad (jsonSerialize f) = f) := by
  constructor
  · intro f hidx hv
    unfold parquetLoad parquetSerialize
    rw [repair_valid_columns f.rows hv]
    rcases f with ⟨rows, idx⟩
    simp_all
  · intro f hidx hms
    unfold jsonLoad jsonSerialize
    rcases f with ⟨rows, idx⟩
    simp only at hms ⊢
    simp only [PdFrame.mk.injEq]
    refine ⟨?_, hidx.symm⟩
    have hmap : List.map (fun r => { r with timestamp := jsonDateMs r.timestamp }) rows =
        List.map id rows := by
      apply List.map_congr_left
      intro r hr
      have h := hms r hr
      have hts : jsonDateMs r.timestamp = r.timestamp := by
        unfold jsonDateMs
        omega
      rw [hts]
      rfl
    rw [hmap, List.map_id]

/-- Witness for C6 at a concrete valid one-row table and the empty
table. -/
theorem C6_witness :
    specValidFrame [tRow 0 1] = true ∧
    parquetLoad (parquetSerialize ⟨[tRow 0 1], true⟩) = some (⟨[tRow 0 1], true⟩ : PdFrame) ∧
    jsonLoad (jsonSerialize ⟨[tRow 0 1], true⟩) = (⟨[tRow 0 1], true⟩ : PdFrame) ∧
    parquetLoad (parquetSerialize ⟨[], true⟩) = some (⟨[], true⟩ : PdFrame) :=
  ⟨by decide, C6_theorem.1 ⟨[tRow 0 1], true⟩ rfl (by decide),
    C6_theorem.2 ⟨[tRow 0 1], true⟩ rfl (by decide),
    C6_theorem.1 ⟨[], true⟩ rfl (by decide)⟩

/-- Claim C7 (confirmed): when the unsynced batch fails schema validation
at merge time, the merge returns the hot cache exactly as it was (the
whole batch is discarded, never partially merged) and logs the failure
together with the offending batch. -/
theorem C7_theorem (old : Frame) (batch : List SensorReading)
    (hsorted : sortedByKey old)
    (hne : make_dataframe_dedup batch ≠ [])
    (hval : validateFrame (make_dataframe_dedup batch) = false) :
    (merge_queue_with_dataframe old batch).frame = old ∧
    (merge_queue_with_dataframe old batch).loggedBatch = some batch := by
  unfold merge_queue_with_dataframe
  dsimp only
  rw [if_neg hne, if_neg (by simp [hval])]
  refine ⟨?_, rfl⟩
  show sort_index (old ++ construct_empty_dataframe) = old
  unfold construct_empty_dataframe
  rw [List.append_nil]
  exact List.Sorted.insertionSort_eq hsorted

/-- Witness for C7: a sorted one-row cache and a batch with an
out-of-vocabulary sensor value. -/
theorem C7_witness :
    sortedByKey [tRow 0 1] ∧ make_dataframe_dedup [badReading] ≠ [] ∧
    validateFrame (make_dataframe_dedup [badReading]) = false ∧
    (merge_queue_with_dataframe [tRow 0 1] [badReading]).frame = [tRow 0 1] ∧
    (merge_queue_with_dataframe [tRow 0 1] [badReading]).loggedBatch = some [badReading] :=
  ⟨by decide, by decide, by decide,
    (C7_theorem [tRow 0 1] [badReading] (by decide) (by decide) (by decide)).1,
    (C7_theorem [tRow 0 1] [badReading] (by decide) (by decide) (by decide)).2⟩
